import Mathlib

/-!
Shallow embedding of `pyiceberg/table/metadata.py` (Apache Iceberg table
metadata parsing, validation and version upgrade) together with proofs about
the claims of the natural-language specification.

Conventions of the embedding:

* Raw wire documents (the Python `dict` handed to `TableMetadata.parse_obj`)
  are modelled by `RawDoc`.  A field that may be absent from the mapping is an
  `Option`; the two fields for which the code distinguishes "key absent" from
  "key present with value `None`" (`table-uuid` and `current-snapshot-id`) are
  `Option (Option _)`: `none` = key absent, `some none` = key bound to null,
  `some (some v)` = key bound to `v`.
* Collaborator types (`Schema`, `PartitionSpec`, `SortOrder`, `Snapshot`,
  `SnapshotRef`) live in modules of the repository that are not part of the
  sources under study; the code reads only their id fields.  They are modelled
  from the spec as records of their id plus an opaque `payload` abstracting the
  rest of their content.
* Python exceptions are modelled by the inductive `PErr`.  Deliberate
  `raise ValidationError(...)` statements of `metadata.py` map to dedicated
  constructors; incidental exceptions (the `ValueError` raised by `max()` on an
  empty sequence, the `TypeError` raised when a list is indexed with a string
  key, `KeyError`, and pydantic's own structural field errors) map to
  constructors flagged as non-deliberate by `isExplicitValidationError`.
* Failure is fail-fast (`Except`): the pyiceberg `ValidationError` derives from
  `Exception` (not `ValueError`), so it propagates out of a validator at once,
  and all the version-1 post-validators carry `skip_on_failure=True`.  Where
  pydantic would aggregate several structural field errors we surface the first
  one in field-declaration order; no claim under study distinguishes members of
  an aggregate.
* `uuid4()` is nondeterministic; the pipeline takes the value `u` that the call
  would return as an explicit argument.
-/

/-- Modelled from the spec: `MAIN_BRANCH` of `pyiceberg/table/refs.py`, the
distinguished branch name tracking `current-snapshot-id`. -/
def MAIN_BRANCH : String := "main"

/-- Modelled from the spec: `SnapshotRefType` of `pyiceberg/table/refs.py`,
the two kinds of snapshot reference. -/
inductive SnapshotRefType where
  | branch
  | tag
deriving DecidableEq, Repr

/-- Modelled from the spec: `SnapshotRef` of `pyiceberg/table/refs.py`, a named
pointer `{snapshot_id, type}` to a snapshot. -/
structure SnapshotRef where
  snapshot_id : Int
  snapshot_ref_type : SnapshotRefType
deriving DecidableEq, Repr

/-- Modelled from the spec: a parsed schema object of `pyiceberg/schema.py`;
the metadata code reads only its `schema_id`, the rest is an opaque payload. -/
structure Schema where
  schema_id : Int
  payload : Nat
deriving DecidableEq, Repr

/-- A raw (wire) schema object: the `schema-id` key may be absent; the rest of
the object is an opaque payload. -/
structure RawSchema where
  schema_id : Option Int
  payload : Nat
deriving DecidableEq, Repr

/-- A raw partition field of the version-1 singular `partition-spec` list; the
code reads only its `field-id`. -/
structure RawPartitionField where
  field_id : Int
  payload : Nat
deriving DecidableEq, Repr

/-- Modelled from the spec: `PartitionSpec` of `pyiceberg/table/partitioning.py`;
the metadata code reads only `spec_id` and stores the raw field list. -/
structure PartitionSpec where
  spec_id : Int
  fields : List RawPartitionField
deriving DecidableEq, Repr

/-- Modelled from the spec: `SortOrder` of `pyiceberg/table/sorting.py`; the
metadata code reads only its `order_id`. -/
structure SortOrder where
  order_id : Int
  payload : Nat
deriving DecidableEq, Repr

/-- Modelled from the spec: `Snapshot` of `pyiceberg/table/snapshots.py`,
opaque to the metadata code beyond its id. -/
structure Snapshot where
  snapshot_id : Int
  payload : Nat
deriving DecidableEq, Repr

/-- `INITIAL_SEQUENCE_NUMBER` of `metadata.py`. -/
def INITIAL_SEQUENCE_NUMBER : Int := 0

/-- `INITIAL_SPEC_ID` of `metadata.py`. -/
def INITIAL_SPEC_ID : Int := 0

/-- `DEFAULT_SCHEMA_ID` of `metadata.py`. -/
def DEFAULT_SCHEMA_ID : Int := 0

/-- Modelled from the spec: `UNSORTED_SORT_ORDER_ID` of
`pyiceberg/table/sorting.py`, the reserved sentinel `0` meaning "unsorted". -/
def UNSORTED_SORT_ORDER_ID : Int := 0

/-- Modelled from the spec: `UNSORTED_SORT_ORDER` of
`pyiceberg/table/sorting.py`, the single reserved "unsorted" sort order. -/
def UNSORTED_SORT_ORDER : SortOrder := { order_id := UNSORTED_SORT_ORDER_ID, payload := 0 }

/-- The exceptions the parse pipeline can raise.  The first five constructors
are the deliberate `raise ValidationError(...)` statements of `metadata.py`;
the remaining ones are incidental Python/pydantic failures. -/
inductive PErr where
  /-- `raise ValidationError("Missing format-version in TableMetadata: ...")` -/
  | missingFormatVersion
  /-- `raise ValidationError(f"Unknown format version: {format_version}")` -/
  | unknownFormatVersion (v : Int)
  /-- `raise ValidationError(f"current-schema-id {id} can't be found in the schemas")` -/
  | currentSchemaIdNotFound (id : Int)
  /-- `raise ValidationError(f"default-spec-id {id} can't be found")` -/
  | defaultSpecIdNotFound (id : Int)
  /-- `raise ValidationError(f"default-sort-order-id {id} can't be found in ...")` -/
  | defaultSortOrderIdNotFound (id : Int)
  /-- `ValueError` raised by `max()` applied to an empty sequence
  (`set_v2_compatible_defaults`, derivation of `last-partition-id`). -/
  | maxEmptySequence
  /-- `TypeError` raised when a list is indexed with a string key (the V1
  post-validators pass `data["schemas"]`-style lists to the check functions,
  whose first line indexes the argument with a string). -/
  | listIndicesTypeError
  /-- `KeyError` raised by a direct `data[...]` access on a missing key. -/
  | keyError (k : String)
  /-- pydantic structural error: required field missing. -/
  | fieldRequired (f : String)
  /-- pydantic structural error: `None` supplied for a non-optional field. -/
  | noneNotAllowed (f : String)
  /-- pydantic structural error: a `Literal[...]` field got another value. -/
  | literalMismatch (f : String)
deriving DecidableEq, Repr

/-- Whether the error is one of the deliberate typed `raise ValidationError`
statements of `metadata.py` (as opposed to an incidental untyped failure). -/
def isExplicitValidationError : PErr → Bool
  | .missingFormatVersion => true
  | .unknownFormatVersion _ => true
  | .currentSchemaIdNotFound _ => true
  | .defaultSpecIdNotFound _ => true
  | .defaultSortOrderIdNotFound _ => true
  | _ => false

/-- The raw wire document: the mapping handed to `TableMetadata.parse_obj`,
with the kebab-case keys of the on-disk format.  `none` means the key is
absent; for `table_uuid` and `current_snapshot_id` the inner `Option` encodes
an explicit null. -/
structure RawDoc where
  /-- key `"format-version"` -/
  format_version : Option Int
  /-- key `"location"` -/
  location : Option String
  /-- key `"table-uuid"`; `some none` is an explicit null -/
  table_uuid : Option (Option Nat)
  /-- key `"last-updated-ms"` -/
  last_updated_ms : Option Int
  /-- key `"last-column-id"` -/
  last_column_id : Option Int
  /-- key `"schema"` (version-1 singular) -/
  schema : Option RawSchema
  /-- key `"schemas"` -/
  schemas : Option (List RawSchema)
  /-- key `"current-schema-id"` -/
  current_schema_id : Option Int
  /-- key `"partition-spec"` (version-1 singular field list) -/
  partition_spec : Option (List RawPartitionField)
  /-- key `"partition-specs"` -/
  partition_specs : Option (List PartitionSpec)
  /-- key `"default-spec-id"` -/
  default_spec_id : Option Int
  /-- key `"last-partition-id"` -/
  last_partition_id : Option Int
  /-- key `"properties"` -/
  properties : Option (List (String × String))
  /-- key `"current-snapshot-id"`; `some none` is an explicit null -/
  current_snapshot_id : Option (Option Int)
  /-- key `"snapshots"` -/
  snapshots : Option (List Snapshot)
  /-- key `"snapshot-log"` (entries opaque to this code) -/
  snapshot_log : Option (List Nat)
  /-- key `"metadata-log"` (entries opaque to this code) -/
  metadata_log : Option (List Nat)
  /-- key `"sort-orders"` -/
  sort_orders : Option (List SortOrder)
  /-- key `"default-sort-order-id"` -/
  default_sort_order_id : Option Int
  /-- key `"refs"` -/
  refs : Option (List (String × SnapshotRef))
  /-- key `"last-sequence-number"` (version-2 only) -/
  last_sequence_number : Option Int
deriving DecidableEq, Repr

/-- A raw document with every key absent, convenient for building inputs. -/
def emptyRaw : RawDoc :=
  { format_version := none, location := none, table_uuid := none,
    last_updated_ms := none, last_column_id := none, schema := none,
    schemas := none, current_schema_id := none, partition_spec := none,
    partition_specs := none, default_spec_id := none, last_partition_id := none,
    properties := none, current_snapshot_id := none, snapshots := none,
    snapshot_log := none, metadata_log := none, sort_orders := none,
    default_sort_order_id := none, refs := none, last_sequence_number := none }

/-- The validated common field set of `TableMetadataCommonFields` (the
pydantic `values` dict after field validation, keyed by field name). -/
structure CommonValues where
  location : String
  table_uuid : Option Nat
  last_updated_ms : Int
  last_column_id : Int
  schemas : List Schema
  current_schema_id : Int
  partition_specs : List PartitionSpec
  default_spec_id : Int
  last_partition_id : Int
  properties : List (String × String)
  current_snapshot_id : Option Int
  snapshots : List Snapshot
  snapshot_log : List Nat
  metadata_log : List Nat
  sort_orders : List SortOrder
  default_sort_order_id : Int
  refs : List (String × SnapshotRef)
deriving DecidableEq, Repr

/-- A constructed `TableMetadataV1` document.  `format_version` is the
`Literal[1]` field; `schema_` and `partition_spec` are the deprecated
version-1 singular fields the model keeps. -/
structure TableMetadataV1 extends CommonValues where
  format_version : Int
  schema_ : Schema
  partition_spec : List RawPartitionField
deriving DecidableEq, Repr

/-- A constructed `TableMetadataV2` document.  `format_version` is the
`Literal[2]` field.  `table_uuid` is mandatory in version 2; construction
guarantees the inherited `Option` is `some`. -/
structure TableMetadataV2 extends CommonValues where
  format_version : Int
  last_sequence_number : Int
deriving DecidableEq, Repr

/-- `check_schemas` of `metadata.py` applied, as version-2 construction does,
to the full `values` dict: succeed iff some schema's id equals
`current_schema_id`, else raise the dangling-schema `ValidationError`.
The source's early-return loop is rendered with `List.any`. -/
def check_schemas (values : CommonValues) : Except PErr CommonValues :=
  if values.schemas.any (fun s => s.schema_id == values.current_schema_id) then
    .ok values
  else
    .error (.currentSchemaIdNotFound values.current_schema_id)

/-- `check_partition_specs` of `metadata.py` applied to the full `values`
dict: succeed iff some spec's id equals `default_spec_id`. -/
def check_partition_specs (values : CommonValues) : Except PErr CommonValues :=
  if values.partition_specs.any (fun p => p.spec_id == values.default_spec_id) then
    .ok values
  else
    .error (.defaultSpecIdNotFound values.default_spec_id)

/-- `check_sort_orders` of `metadata.py` applied to the full `values` dict:
short-circuit to success on the unsorted sentinel, otherwise require a sort
order whose id equals `default_sort_order_id`. -/
def check_sort_orders (values : CommonValues) : Except PErr CommonValues :=
  if values.default_sort_order_id ≠ UNSORTED_SORT_ORDER_ID then
    if values.sort_orders.any (fun o => o.order_id == values.default_sort_order_id) then
      .ok values
    else
      .error (.defaultSortOrderIdNotFound values.default_sort_order_id)
  else
    .ok values

/-- `TableMetadataCommonFields.cleanup_snapshot_id`, the `pre=True` root
validator: if the raw `current-snapshot-id` equals `-1`, rebind the key to
`None` (the key stays present, bound to null). -/
def cleanup_snapshot_id (data : RawDoc) : RawDoc :=
  if data.current_snapshot_id = some (some (-1)) then
    { data with current_snapshot_id := some none }
  else
    data

/-- `TableMetadataCommonFields.construct_refs`, the post root validator: the
walrus `if current_snapshot_id := data.get("current_snapshot_id")` takes the
branch only when the value is truthy, i.e. present and nonzero; it then
rebinds `data["refs"]` to a fresh single-entry mapping. -/
def construct_refs (data : CommonValues) : CommonValues :=
  match data.current_snapshot_id with
  | some i =>
    if i = 0 then data
    else { data with
           refs := [(MAIN_BRANCH,
                     { snapshot_id := i, snapshot_ref_type := SnapshotRefType.branch })] }
  | none => data

/-- Parsing a raw schema object into a `Schema`.  Modelled from the spec: the
schema type itself lives outside the sources under study; its id field carries
the default schema id `0` when the raw object has none. -/
def parseSchema (s : RawSchema) : Schema :=
  { schema_id := s.schema_id.getD DEFAULT_SCHEMA_ID, payload := s.payload }

/-- The `data["schema"]["schema-id"] = DEFAULT_SCHEMA_ID` normalization of
`set_v2_compatible_defaults`: insert the default id into the (shared, mutable)
raw schema object when the key is absent. -/
def normalize_schema_id (s : RawSchema) : RawSchema :=
  if s.schema_id = none then { s with schema_id := some DEFAULT_SCHEMA_ID } else s

/-- `max(spec["field-id"] for spec in data["partition-spec"])` on a non-empty
field list (head `f`, tail `fs`). -/
def maxFieldId (f : RawPartitionField) (fs : List RawPartitionField) : Int :=
  fs.foldl (fun a g => max a g.field_id) f.field_id

/-- The `table-uuid` defaulting step of `set_v2_compatible_defaults`: if the
key is absent, bind it to a fresh random UUID (`u` stands for the value
`uuid4()` would return). -/
def uuidStep (data : RawDoc) (u : Nat) : RawDoc :=
  match data.table_uuid with
  | none => { data with table_uuid := some (some u) }
  | some _ => data

/-- `TableMetadataV1.set_v2_compatible_defaults`, the version-1 `pre=True`
root validator, in source order: (1) `data["schema"]` (a `KeyError` if the key
is absent) gets a `schema-id` when it has none; (2) if `last-partition-id` is
absent it is derived as the maximum `field-id` of `data["partition-spec"]`
(`KeyError` if absent, `ValueError` from `max()` if empty); (3) if
`table-uuid` is absent a fresh UUID is bound. -/
def set_v2_compatible_defaults (data : RawDoc) (u : Nat) : Except PErr RawDoc :=
  match data.schema with
  | none => .error (.keyError "schema")
  | some s =>
    let d1 := { data with schema := some (normalize_schema_id s) }
    match d1.last_partition_id with
    | some _ => .ok (uuidStep d1 u)
    | none =>
      match d1.partition_spec with
      | none => .error (.keyError "partition-spec")
      | some [] => .error .maxEmptySequence
      | some (f :: fs) =>
        .ok (uuidStep { d1 with last_partition_id := some (maxFieldId f fs) } u)

/-- The common field set as pydantic field validation computes it from a raw
document: aliases resolved, defaults (`default` / `default_factory`) applied,
optional fields collapsing null and absent.  The `getD` defaults on the
required fields (`location`, `last-updated-ms`, `last-column-id`,
`last-partition-id`) only materialize after the field-presence guards of the
callers have passed. -/
def commonOf (data : RawDoc) : CommonValues :=
  { location := data.location.getD "",
    table_uuid := data.table_uuid.join,
    last_updated_ms := data.last_updated_ms.getD 0,
    last_column_id := data.last_column_id.getD 0,
    schemas := (data.schemas.getD []).map parseSchema,
    current_schema_id := data.current_schema_id.getD DEFAULT_SCHEMA_ID,
    partition_specs := data.partition_specs.getD [],
    default_spec_id := data.default_spec_id.getD INITIAL_SPEC_ID,
    last_partition_id := data.last_partition_id.getD 0,
    properties := data.properties.getD [],
    current_snapshot_id := data.current_snapshot_id.join,
    snapshots := data.snapshots.getD [],
    snapshot_log := data.snapshot_log.getD [],
    metadata_log := data.metadata_log.getD [],
    sort_orders := data.sort_orders.getD [],
    default_sort_order_id := data.default_sort_order_id.getD UNSORTED_SORT_ORDER_ID,
    refs := data.refs.getD [] }

/-- pydantic field validation for `TableMetadataV1`: the required common
fields and the version-1 `Literal[1]` tag, singular `schema` and singular
`partition-spec` must be present.  Returns the validated `values` together
with the parsed singular schema and partition-spec fields. -/
def v1FieldParse (data : RawDoc) :
    Except PErr (CommonValues × Schema × List RawPartitionField) :=
  if data.location = none then .error (.fieldRequired "location")
  else if data.last_updated_ms = none then .error (.fieldRequired "last-updated-ms")
  else if data.last_column_id = none then .error (.fieldRequired "last-column-id")
  else if data.last_partition_id = none then .error (.fieldRequired "last-partition-id")
  else if data.format_version ≠ some 1 then .error (.literalMismatch "format-version")
  else
    match data.schema, data.partition_spec with
    | some s, some ps => .ok (commonOf data, parseSchema s, ps)
    | none, _ => .error (.fieldRequired "schema")
    | some _, none => .error (.fieldRequired "partition-spec")

/-- pydantic field validation for `TableMetadataV2`: the required common
fields, the `Literal[2]` tag, and the mandatory non-null `table-uuid`.
Returns the validated `values` and the `last-sequence-number` (defaulted to
the initial sequence number).  `commonOf` already records the UUID. -/
def v2FieldParse (data : RawDoc) : Except PErr (CommonValues × Int) :=
  if data.location = none then .error (.fieldRequired "location")
  else if data.last_updated_ms = none then .error (.fieldRequired "last-updated-ms")
  else if data.last_column_id = none then .error (.fieldRequired "last-column-id")
  else if data.last_partition_id = none then .error (.fieldRequired "last-partition-id")
  else if data.format_version ≠ some 2 then .error (.literalMismatch "format-version")
  else
    match data.table_uuid with
    | none => .error (.fieldRequired "table-uuid")
    | some none => .error (.noneNotAllowed "table-uuid")
    | some (some _) =>
      .ok (commonOf data, data.last_sequence_number.getD INITIAL_SEQUENCE_NUMBER)

/-- `TableMetadataV1.construct_schemas`: with no (or an empty) plural
`schemas` collection, synthesize it from the singular parsed schema
(`data["schema_"]`); otherwise the source calls `check_schemas(data["schemas"])`,
handing the list itself to a function that immediately indexes its argument
with the string `"current_schema_id"`, which on a list raises `TypeError`. -/
def construct_schemas (data : CommonValues) (schema_ : Schema) : Except PErr CommonValues :=
  if data.schemas.isEmpty then .ok { data with schemas := [schema_] }
  else .error .listIndicesTypeError

/-- `TableMetadataV1.construct_partition_specs`: with no (or an empty) plural
collection, synthesize a single spec with the reserved initial spec id from
the singular raw field list; otherwise the source calls
`check_partition_specs(data["partition_specs"])` on the list itself, raising
`TypeError` as in `construct_schemas`. -/
def construct_partition_specs (data : CommonValues) (partition_spec : List RawPartitionField) :
    Except PErr CommonValues :=
  if data.partition_specs.isEmpty then
    .ok { data with
          partition_specs := [{ spec_id := INITIAL_SPEC_ID, fields := partition_spec }] }
  else .error .listIndicesTypeError

/-- `TableMetadataV1.set_sort_orders`: the walrus
`if sort_orders := data.get("sort_orders")` takes the branch only on a
non-empty list, which it hands to `check_sort_orders` (raising `TypeError` on
the string indexing as above); an absent or empty collection is replaced by
the single reserved unsorted order. -/
def set_sort_orders (data : CommonValues) : Except PErr CommonValues :=
  if data.sort_orders.isEmpty then .ok { data with sort_orders := [UNSORTED_SORT_ORDER] }
  else .error .listIndicesTypeError

/-- The `TableMetadataV1(**data)` construction pipeline: the inherited
`cleanup_snapshot_id` pre-validator, then `set_v2_compatible_defaults`, then
field validation, then the post validators `construct_refs`,
`construct_schemas`, `construct_partition_specs`, `set_sort_orders` (base
class validators run before the subclass's own, post validators in
declaration order, all with `skip_on_failure=True`). -/
def v1_pipeline (data : RawDoc) (u : Nat) : Except PErr TableMetadataV1 :=
  match set_v2_compatible_defaults (cleanup_snapshot_id data) u with
  | .error e => .error e
  | .ok d =>
    match v1FieldParse d with
    | .error e => .error e
    | .ok (c, sch, ps) =>
      let c := construct_refs c
      match construct_schemas c sch with
      | .error e => .error e
      | .ok c =>
        match construct_partition_specs c ps with
        | .error e => .error e
        | .ok c =>
          match set_sort_orders c with
          | .error e => .error e
          | .ok c =>
            .ok { toCommonValues := c, format_version := 1,
                  schema_ := sch, partition_spec := ps }

/-- The `TableMetadataV2(**data)` construction pipeline: `cleanup_snapshot_id`,
field validation, then `construct_refs` and the three cross-reference checks
on the full `values` dict. -/
def v2_pipeline (data : RawDoc) : Except PErr TableMetadataV2 :=
  match v2FieldParse (cleanup_snapshot_id data) with
  | .error e => .error e
  | .ok (c, lsn) =>
    let c := construct_refs c
    match check_schemas c with
    | .error e => .error e
    | .ok c =>
      match check_partition_specs c with
      | .error e => .error e
      | .ok c =>
        match check_sort_orders c with
        | .error e => .error e
        | .ok c =>
          .ok { toCommonValues := c, format_version := 2, last_sequence_number := lsn }

/-- `TableMetadata.parse_obj`: fail on a missing `format-version`, dispatch on
`1` / `2`, fail on anything else.  `u` is the value `uuid4()` would return if
the version-1 pipeline needs one. -/
def parse_obj (data : RawDoc) (u : Nat) :
    Except PErr (TableMetadataV1 ⊕ TableMetadataV2) :=
  match data.format_version with
  | none => .error .missingFormatVersion
  | some fv =>
    if fv = 1 then (v1_pipeline data u).map Sum.inl
    else if fv = 2 then (v2_pipeline data).map Sum.inr
    else .error (.unknownFormatVersion fv)

/-- `TableMetadataV1.to_v2`: `metadata = copy(self.dict())`,
`metadata["format_version"] = 2`, `TableMetadataV2(**metadata)`.  The dict
produced by `.dict()` is keyed by field names, so `cleanup_snapshot_id`
(which looks up the kebab key `"current-snapshot-id"`) is a no-op, the
version-1 singular fields are ignored as extra keys, the absent
`last_sequence_number` takes its default, and the mandatory `table_uuid`
rejects a `None` value; then the version-2 post validators run.  `.dict()`
converts nested models to fresh dicts, so the source document shares no
mutable state with the construction. -/
def to_v2 (m : TableMetadataV1) : Except PErr TableMetadataV2 :=
  if m.table_uuid.isNone then .error (.noneNotAllowed "table-uuid")
  else
    let c := construct_refs m.toCommonValues
    match check_schemas c with
    | .error e => .error e
    | .ok c =>
      match check_partition_specs c with
      | .error e => .error e
      | .ok c =>
        match check_sort_orders c with
        | .error e => .error e
        | .ok c =>
          .ok { toCommonValues := c, format_version := 2,
                last_sequence_number := INITIAL_SEQUENCE_NUMBER }

/-- The caller-visible state of the input mapping after `parse_obj` returns
(successfully or not).  `parse_obj` unpacks the mapping into keyword
arguments, so every top-level rebinding inside the validators acts on a
shallow copy; the only write that reaches an object the caller still holds is
`data["schema"]["schema-id"] = DEFAULT_SCHEMA_ID` in
`set_v2_compatible_defaults`, which mutates the shared nested singular schema
dict of a version-1 document in place (and happens before any later failure
can occur, the `KeyError` on a missing `"schema"` key preceding it). -/
def parse_obj_inputAfter (data : RawDoc) : RawDoc :=
  if data.format_version = some 1 then
    match data.schema with
    | some s => { data with schema := some (normalize_schema_id s) }
    | none => data
  else data

/-! ### Observables and derived descriptions of the pipeline -/

/-- The `current_snapshot_id` of a constructed document of either version. -/
def csidOf : TableMetadataV1 ⊕ TableMetadataV2 → Option Int
  | .inl m => m.current_snapshot_id
  | .inr m => m.current_snapshot_id

/-- The `refs` mapping of a constructed document of either version. -/
def refsOf : TableMetadataV1 ⊕ TableMetadataV2 → List (String × SnapshotRef)
  | .inl m => m.refs
  | .inr m => m.refs

/-- The `default_sort_order_id` of a constructed document of either version. -/
def dsoiOf : TableMetadataV1 ⊕ TableMetadataV2 → Int
  | .inl m => m.default_sort_order_id
  | .inr m => m.default_sort_order_id

/-- The `sort_orders` collection of a constructed document of either
version. -/
def sortOrdersOf : TableMetadataV1 ⊕ TableMetadataV2 → List SortOrder
  | .inl m => m.sort_orders
  | .inr m => m.sort_orders

/-- The `current_snapshot_id` every successful parse of `d` ends up with: the
raw value after sentinel cleanup, null and absent collapsed. -/
def finalCsid (d : RawDoc) : Option Int :=
  ((cleanup_snapshot_id d).current_snapshot_id).join

/-- The `refs` mapping every successful parse of `d` ends up with: the
supplied mapping, unless the finalized snapshot id is present and nonzero, in
which case `construct_refs` rebinds the mapping to the single main-branch
entry. -/
def finalRefs (d : RawDoc) : List (String × SnapshotRef) :=
  match finalCsid d with
  | some i =>
    if i = 0 then d.refs.getD []
    else [(MAIN_BRANCH, { snapshot_id := i, snapshot_ref_type := SnapshotRefType.branch })]
  | none => d.refs.getD []

/-- A well-formed version-1 raw document, the base of the concrete test
inputs below: singular schema and partition-spec supplied, no optional keys. -/
def v1base : RawDoc :=
  { emptyRaw with
    format_version := some 1, location := some "s3://bucket/tbl",
    last_updated_ms := some 1, last_column_id := some 1,
    schema := some { schema_id := some 0, payload := 5 },
    partition_spec := some [{ field_id := 1000, payload := 0 }] }

/-- A well-formed version-2 raw document, the base of the concrete test
inputs below. -/
def v2base : RawDoc :=
  { emptyRaw with
    format_version := some 2, location := some "s3://bucket/tbl",
    table_uuid := some (some 11),
    last_updated_ms := some 1, last_column_id := some 1,
    last_partition_id := some 1000,
    schemas := some [{ schema_id := some 0, payload := 5 }],
    partition_specs := some [{ spec_id := 0, fields := [] }] }

/-! ### Frame lemmas for the normalization steps -/

theorem cleanup_refs (d : RawDoc) : (cleanup_snapshot_id d).refs = d.refs := by
  unfold cleanup_snapshot_id; split <;> rfl

theorem cleanup_sort_orders (d : RawDoc) :
    (cleanup_snapshot_id d).sort_orders = d.sort_orders := by
  unfold cleanup_snapshot_id; split <;> rfl

theorem cleanup_dsoi (d : RawDoc) :
    (cleanup_snapshot_id d).default_sort_order_id = d.default_sort_order_id := by
  unfold cleanup_snapshot_id; split <;> rfl

theorem cleanup_schema (d : RawDoc) : (cleanup_snapshot_id d).schema = d.schema := by
  unfold cleanup_snapshot_id; split <;> rfl

theorem cleanup_partition_spec (d : RawDoc) :
    (cleanup_snapshot_id d).partition_spec = d.partition_spec := by
  unfold cleanup_snapshot_id; split <;> rfl

theorem cleanup_last_partition_id (d : RawDoc) :
    (cleanup_snapshot_id d).last_partition_id = d.last_partition_id := by
  unfold cleanup_snapshot_id; split <;> rfl

theorem cleanup_table_uuid (d : RawDoc) :
    (cleanup_snapshot_id d).table_uuid = d.table_uuid := by
  unfold cleanup_snapshot_id; split <;> rfl

theorem uuidStep_refs (d : RawDoc) (u : Nat) : (uuidStep d u).refs = d.refs := by
  unfold uuidStep; split <;> rfl

theorem uuidStep_csid (d : RawDoc) (u : Nat) :
    (uuidStep d u).current_snapshot_id = d.current_snapshot_id := by
  unfold uuidStep; split <;> rfl

theorem uuidStep_sort_orders (d : RawDoc) (u : Nat) :
    (uuidStep d u).sort_orders = d.sort_orders := by
  unfold uuidStep; split <;> rfl

theorem uuidStep_dsoi (d : RawDoc) (u : Nat) :
    (uuidStep d u).default_sort_order_id = d.default_sort_order_id := by
  unfold uuidStep; split <;> rfl

/-- `set_v2_compatible_defaults` touches only `schema`, `last_partition_id`
and `table_uuid`: the fields the later claims observe pass through. -/
theorem set_v2_frame (d : RawDoc) (u : Nat) (d' : RawDoc)
    (h : set_v2_compatible_defaults d u = .ok d') :
    d'.refs = d.refs ∧ d'.current_snapshot_id = d.current_snapshot_id ∧
    d'.sort_orders = d.sort_orders ∧
    d'.default_sort_order_id = d.default_sort_order_id := by
  unfold set_v2_compatible_defaults at h
  cases hs : d.schema with
  | none => rw [hs] at h; exact Except.noConfusion h
  | some s =>
    rw [hs] at h
    simp only at h
    cases hlp : d.last_partition_id with
    | some lp =>
      rw [show ({ d with schema := some (normalize_schema_id s) } : RawDoc).last_partition_id
            = d.last_partition_id from rfl, hlp] at h
      injection h with h
      subst h
      exact ⟨uuidStep_refs .., uuidStep_csid .., uuidStep_sort_orders .., uuidStep_dsoi ..⟩
    | none =>
      rw [show ({ d with schema := some (normalize_schema_id s) } : RawDoc).last_partition_id
            = d.last_partition_id from rfl, hlp] at h
      cases hps : d.partition_spec with
      | none =>
        rw [show ({ d with schema := some (normalize_schema_id s) } : RawDoc).partition_spec
              = d.partition_spec from rfl, hps] at h
        exact Except.noConfusion h
      | some ps =>
        rw [show ({ d with schema := some (normalize_schema_id s) } : RawDoc).partition_spec
              = d.partition_spec from rfl, hps] at h
        cases ps with
        | nil => exact Except.noConfusion h
        | cons f fs =>
          injection h with h
          subst h
          exact ⟨uuidStep_refs .., uuidStep_csid .., uuidStep_sort_orders .., uuidStep_dsoi ..⟩

/-- On success, version-1 field validation returns exactly the defaulted
common field set of the (normalized) raw document. -/
theorem v1FieldParse_ok (d : RawDoc) (c : CommonValues) (sch : Schema)
    (ps : List RawPartitionField) (h : v1FieldParse d = .ok (c, sch, ps)) :
    c = commonOf d := by
  unfold v1FieldParse at h
  split at h
  · exact Except.noConfusion h
  · split at h
    · exact Except.noConfusion h
    · split at h
      · exact Except.noConfusion h
      · split at h
        · exact Except.noConfusion h
        · split at h
          · exact Except.noConfusion h
          · split at h
            · simp only [Except.ok.injEq, Prod.mk.injEq] at h
              exact h.1.symm
            · exact Except.noConfusion h
            · exact Except.noConfusion h

/-- On success, version-2 field validation returns exactly the defaulted
common field set of the (cleaned) raw document. -/
theorem v2FieldParse_ok (d : RawDoc) (c : CommonValues) (lsn : Int)
    (h : v2FieldParse d = .ok (c, lsn)) : c = commonOf d := by
  unfold v2FieldParse at h
  split at h
  · exact Except.noConfusion h
  · split at h
    · exact Except.noConfusion h
    · split at h
      · exact Except.noConfusion h
      · split at h
        · exact Except.noConfusion h
        · split at h
          · exact Except.noConfusion h
          · split at h
            · exact Except.noConfusion h
            · exact Except.noConfusion h
            · simp only [Except.ok.injEq, Prod.mk.injEq] at h
              exact h.1.symm

theorem construct_refs_csid (c : CommonValues) :
    (construct_refs c).current_snapshot_id = c.current_snapshot_id := by
  unfold construct_refs
  split
  · split <;> rfl
  · rfl

/-- The `refs` mapping `construct_refs` leaves behind, as a function of the
incoming snapshot id. -/
theorem construct_refs_refs (c : CommonValues) :
    (construct_refs c).refs =
      match c.current_snapshot_id with
      | some i =>
        if i = 0 then c.refs
        else [(MAIN_BRANCH, { snapshot_id := i, snapshot_ref_type := SnapshotRefType.branch })]
      | none => c.refs := by
  unfold construct_refs
  split
  · split
    · simp only [*, if_pos]
    · simp only [*, if_neg]
  · simp only [*]

theorem construct_refs_sort_orders (c : CommonValues) :
    (construct_refs c).sort_orders = c.sort_orders := by
  unfold construct_refs; split
  · split <;> rfl
  · rfl

theorem construct_refs_dsoi (c : CommonValues) :
    (construct_refs c).default_sort_order_id = c.default_sort_order_id := by
  unfold construct_refs; split
  · split <;> rfl
  · rfl

/-- When the document's `refs` already agree with `construct_refs`'s output
(as they do for every document the pipeline has constructed), re-running
`construct_refs` is the identity. -/
theorem construct_refs_congr (c : CommonValues)
    (hc : ∀ i, c.current_snapshot_id = some i → i ≠ 0 →
      c.refs = [(MAIN_BRANCH, { snapshot_id := i, snapshot_ref_type := SnapshotRefType.branch })]) :
    construct_refs c = c := by
  unfold construct_refs
  split
  · next i heq =>
    split
    · rfl
    · next hne => rw [← hc i heq hne]
  · rfl

theorem construct_schemas_ok (c : CommonValues) (sch : Schema) (c' : CommonValues)
    (h : construct_schemas c sch = .ok c') :
    c' = { c with schemas := [sch] } ∧ c.schemas = [] := by
  unfold construct_schemas at h
  split at h
  · injection h with h
    exact ⟨h.symm, List.isEmpty_iff.mp ‹_›⟩
  · exact Except.noConfusion h

theorem construct_partition_specs_ok (c : CommonValues) (ps : List RawPartitionField)
    (c' : CommonValues) (h : construct_partition_specs c ps = .ok c') :
    c' = { c with partition_specs := [{ spec_id := INITIAL_SPEC_ID, fields := ps }] } ∧
    c.partition_specs = [] := by
  unfold construct_partition_specs at h
  split at h
  · injection h with h
    exact ⟨h.symm, List.isEmpty_iff.mp ‹_›⟩
  · exact Except.noConfusion h

theorem set_sort_orders_ok (c : CommonValues) (c' : CommonValues)
    (h : set_sort_orders c = .ok c') :
    c' = { c with sort_orders := [UNSORTED_SORT_ORDER] } ∧ c.sort_orders = [] := by
  unfold set_sort_orders at h
  split at h
  · injection h with h
    exact ⟨h.symm, List.isEmpty_iff.mp ‹_›⟩
  · exact Except.noConfusion h

theorem check_schemas_ok (c c' : CommonValues) (h : check_schemas c = .ok c') : c' = c := by
  unfold check_schemas at h
  split at h
  · injection h with h; exact h.symm
  · exact Except.noConfusion h

theorem check_partition_specs_ok (c c' : CommonValues)
    (h : check_partition_specs c = .ok c') : c' = c := by
  unfold check_partition_specs at h
  split at h
  · injection h with h; exact h.symm
  · exact Except.noConfusion h

theorem check_sort_orders_ok (c c' : CommonValues)
    (h : check_sort_orders c = .ok c') : c' = c := by
  unfold check_sort_orders at h
  split at h
  · split at h
    · injection h with h; exact h.symm
    · exact Except.noConfusion h
  · injection h with h; exact h.symm

/-- What every successful version-1 construction looks like on the fields the
claims observe: the snapshot id is the cleaned-up raw value, the refs mapping
is `finalRefs`, the sort orders collapse to the single unsorted order (success
forces the supplied plural collection to be empty), the default sort order id
is the raw value or its default, and the version tag is `1`. -/
theorem v1_pipeline_ok (d : RawDoc) (u : Nat) (m : TableMetadataV1)
    (h : v1_pipeline d u = .ok m) :
    m.current_snapshot_id = finalCsid d ∧
    m.refs = finalRefs d ∧
    m.default_sort_order_id = d.default_sort_order_id.getD UNSORTED_SORT_ORDER_ID ∧
    m.sort_orders = [UNSORTED_SORT_ORDER] ∧
    m.format_version = 1 := by
  unfold v1_pipeline at h
  cases hpre : set_v2_compatible_defaults (cleanup_snapshot_id d) u with
  | error e => rw [hpre] at h; exact Except.noConfusion h
  | ok d' =>
    rw [hpre] at h
    simp only at h
    obtain ⟨hrefs, hcsid, hso, hdsoi⟩ := set_v2_frame _ u _ hpre
    cases hfp : v1FieldParse d' with
    | error e => rw [hfp] at h; exact Except.noConfusion h
    | ok t =>
      obtain ⟨c, sch, ps⟩ := t
      rw [hfp] at h
      have hc : c = commonOf d' := v1FieldParse_ok _ _ _ _ hfp
      simp only at h
      cases hcs : construct_schemas (construct_refs c) sch with
      | error e => rw [hcs] at h; exact Except.noConfusion h
      | ok c2 =>
        rw [hcs] at h
        simp only at h
        obtain ⟨hc2, -⟩ := construct_schemas_ok _ _ _ hcs
        cases hcp : construct_partition_specs c2 ps with
        | error e => rw [hcp] at h; exact Except.noConfusion h
        | ok c3 =>
          rw [hcp] at h
          simp only at h
          obtain ⟨hc3, -⟩ := construct_partition_specs_ok _ _ _ hcp
          cases hso4 : set_sort_orders c3 with
          | error e => rw [hso4] at h; exact Except.noConfusion h
          | ok c4 =>
            rw [hso4] at h
            simp only at h
            obtain ⟨hc4, -⟩ := set_sort_orders_ok _ _ hso4
            injection h with h
            subst h hc4 hc3 hc2 hc
            refine ⟨?_, ?_, ?_, rfl, rfl⟩
            · show (construct_refs (commonOf d')).current_snapshot_id = finalCsid d
              rw [construct_refs_csid]
              show d'.current_snapshot_id.join = finalCsid d
              rw [hcsid]; rfl
            · show (construct_refs (commonOf d')).refs = finalRefs d
              rw [construct_refs_refs]
              show (match (commonOf d').current_snapshot_id with
                    | some i => if i = 0 then (commonOf d').refs
                        else [(MAIN_BRANCH,
                               { snapshot_id := i,
                                 snapshot_ref_type := SnapshotRefType.branch })]
                    | none => (commonOf d').refs) = finalRefs d
              have h1 : (commonOf d').current_snapshot_id = finalCsid d := by
                show d'.current_snapshot_id.join = finalCsid d
                rw [hcsid]; rfl
              have h2 : (commonOf d').refs = d.refs.getD [] := by
                show d'.refs.getD [] = d.refs.getD []
                rw [hrefs, cleanup_refs]
              rw [h1, h2]; rfl
            · show (construct_refs (commonOf d')).default_sort_order_id
                = d.default_sort_order_id.getD UNSORTED_SORT_ORDER_ID
              rw [construct_refs_dsoi]
              show d'.default_sort_order_id.getD UNSORTED_SORT_ORDER_ID
                = d.default_sort_order_id.getD UNSORTED_SORT_ORDER_ID
              rw [hdsoi, cleanup_dsoi]

/-- What every successful version-2 construction looks like on the fields the
claims observe. -/
theorem v2_pipeline_ok (d : RawDoc) (m : TableMetadataV2)
    (h : v2_pipeline d = .ok m) :
    m.current_snapshot_id = finalCsid d ∧
    m.refs = finalRefs d ∧
    m.format_version = 2 := by
  unfold v2_pipeline at h
  cases hfp : v2FieldParse (cleanup_snapshot_id d) with
  | error e => rw [hfp] at h; exact Except.noConfusion h
  | ok t =>
    obtain ⟨c, lsn⟩ := t
    rw [hfp] at h
    have hc : c = commonOf (cleanup_snapshot_id d) := v2FieldParse_ok _ _ _ hfp
    simp only at h
    cases hch : check_schemas (construct_refs c) with
    | error e => rw [hch] at h; exact Except.noConfusion h
    | ok c2 =>
      rw [hch] at h
      simp only at h
      have hc2 := check_schemas_ok _ _ hch
      cases hcp : check_partition_specs c2 with
      | error e => rw [hcp] at h; exact Except.noConfusion h
      | ok c3 =>
        rw [hcp] at h
        simp only at h
        have hc3 := check_partition_specs_ok _ _ hcp
        cases hcso : check_sort_orders c3 with
        | error e => rw [hcso] at h; exact Except.noConfusion h
        | ok c4 =>
          rw [hcso] at h
          simp only at h
          have hc4 := check_sort_orders_ok _ _ hcso
          injection h with h
          subst h hc4 hc3 hc2 hc
          refine ⟨?_, ?_, rfl⟩
          · show (construct_refs (commonOf (cleanup_snapshot_id d))).current_snapshot_id
              = finalCsid d
            rw [construct_refs_csid]; rfl
          · show (construct_refs (commonOf (cleanup_snapshot_id d))).refs = finalRefs d
            rw [construct_refs_refs]
            have h2 : (commonOf (cleanup_snapshot_id d)).refs = d.refs.getD [] := by
              show (cleanup_snapshot_id d).refs.getD [] = d.refs.getD []
              rw [cleanup_refs]
            have h1 : (commonOf (cleanup_snapshot_id d)).current_snapshot_id = finalCsid d := rfl
            rw [h1, h2]; rfl

/-- Every successful parse, of either version, carries the snapshot id and
refs mapping predicted by `finalCsid` and `finalRefs`. -/
theorem parse_obj_ok (d : RawDoc) (u : Nat) (m : TableMetadataV1 ⊕ TableMetadataV2)
    (h : parse_obj d u = .ok m) :
    csidOf m = finalCsid d ∧ refsOf m = finalRefs d := by
  unfold parse_obj at h
  cases hfv : d.format_version with
  | none => rw [hfv] at h; exact Except.noConfusion h
  | some fv =>
    rw [hfv] at h
    simp only at h
    by_cases h1 : fv = 1
    · rw [if_pos h1] at h
      cases hv : v1_pipeline d u with
      | error e => rw [hv] at h; exact Except.noConfusion h
      | ok m1 =>
        rw [hv] at h
        simp only [Except.map] at h
        injection h with h
        subst h
        obtain ⟨ha, hb, -, -, -⟩ := v1_pipeline_ok _ _ _ hv
        exact ⟨ha, hb⟩
    · rw [if_neg h1] at h
      by_cases h2 : fv = 2
      · rw [if_pos h2] at h
        cases hv : v2_pipeline d with
        | error e => rw [hv] at h; exact Except.noConfusion h
        | ok m2 =>
          rw [hv] at h
          simp only [Except.map] at h
          injection h with h
          subst h
          obtain ⟨ha, hb, -⟩ := v2_pipeline_ok _ _ hv
          exact ⟨ha, hb⟩
      · rw [if_neg h2] at h
        exact Except.noConfusion h

/-- `set_v2_compatible_defaults` can only fail with incidental Python errors
(`KeyError` or the `ValueError` from `max()`), never with a deliberate typed
`ValidationError`. -/
theorem set_v2_error_not_explicit (d : RawDoc) (u : Nat) (e : PErr)
    (h : set_v2_compatible_defaults d u = .error e) :
    isExplicitValidationError e = false := by
  unfold set_v2_compatible_defaults at h
  cases hs : d.schema with
  | none => rw [hs] at h; injection h with h; subst h; rfl
  | some s =>
    rw [hs] at h
    simp only at h
    cases hlp : d.last_partition_id with
    | some lp => rw [hlp] at h; exact Except.noConfusion h
    | none =>
      rw [hlp] at h
      cases hps : d.partition_spec with
      | none => rw [hps] at h; injection h with h; subst h; rfl
      | some ps =>
        cases ps with
        | nil => rw [hps] at h; injection h with h; subst h; rfl
        | cons f fs => rw [hps] at h; exact Except.noConfusion h

/-- Version-1 field validation can only fail with pydantic structural
errors, never with a deliberate typed `ValidationError`. -/
theorem v1FieldParse_error_not_explicit (d : RawDoc) (e : PErr)
    (h : v1FieldParse d = .error e) : isExplicitValidationError e = false := by
  unfold v1FieldParse at h
  split at h
  · injection h with h; subst h; rfl
  · split at h
    · injection h with h; subst h; rfl
    · split at h
      · injection h with h; subst h; rfl
      · split at h
        · injection h with h; subst h; rfl
        · split at h
          · injection h with h; subst h; rfl
          · split at h
            · exact Except.noConfusion h
            · injection h with h; subst h; rfl
            · injection h with h; subst h; rfl

theorem construct_schemas_error (c : CommonValues) (sch : Schema) (e : PErr)
    (h : construct_schemas c sch = .error e) : e = .listIndicesTypeError := by
  unfold construct_schemas at h
  split at h
  · exact Except.noConfusion h
  · injection h with h; exact h.symm

theorem construct_partition_specs_error (c : CommonValues) (ps : List RawPartitionField)
    (e : PErr) (h : construct_partition_specs c ps = .error e) :
    e = .listIndicesTypeError := by
  unfold construct_partition_specs at h
  split at h
  · exact Except.noConfusion h
  · injection h with h; exact h.symm

theorem set_sort_orders_error (c : CommonValues) (e : PErr)
    (h : set_sort_orders c = .error e) : e = .listIndicesTypeError := by
  unfold set_sort_orders at h
  split at h
  · exact Except.noConfusion h
  · injection h with h; exact h.symm

/-- The version-1 construction pipeline never fails with one of the
deliberate typed `ValidationError` raises: every deliberate check is either
unreachable for version 1 or derailed by the `TypeError` of the misapplied
check functions. -/
theorem v1_pipeline_error_not_explicit (d : RawDoc) (u : Nat) (e : PErr)
    (h : v1_pipeline d u = .error e) : isExplicitValidationError e = false := by
  unfold v1_pipeline at h
  cases hpre : set_v2_compatible_defaults (cleanup_snapshot_id d) u with
  | error e0 =>
    rw [hpre] at h
    injection h with h
    subst h
    exact set_v2_error_not_explicit _ _ _ hpre
  | ok d' =>
    rw [hpre] at h
    simp only at h
    cases hfp : v1FieldParse d' with
    | error e0 =>
      rw [hfp] at h
      injection h with h
      subst h
      exact v1FieldParse_error_not_explicit _ _ hfp
    | ok t =>
      obtain ⟨c, sch, ps⟩ := t
      rw [hfp] at h
      simp only at h
      cases hcs : construct_schemas (construct_refs c) sch with
      | error e0 =>
        rw [hcs] at h
        injection h with h
        subst h
        rw [construct_schemas_error _ _ _ hcs]
        rfl
      | ok c2 =>
        rw [hcs] at h
        simp only at h
        cases hcp : construct_partition_specs c2 ps with
        | error e0 =>
          rw [hcp] at h
          injection h with h
          subst h
          rw [construct_partition_specs_error _ _ _ hcp]
          rfl
        | ok c3 =>
          rw [hcp] at h
          simp only at h
          cases hso : set_sort_orders c3 with
          | error e0 =>
            rw [hso] at h
            injection h with h
            subst h
            rw [set_sort_orders_error _ _ hso]
            rfl
          | ok c4 => rw [hso] at h; exact Except.noConfusion h

/-- When the raw `table-uuid` key is present, `set_v2_compatible_defaults`
does not depend on the freshly drawn UUID. -/
theorem set_v2_uuid_indep (d : RawDoc) (u1 u2 : Nat) (hu : d.table_uuid ≠ none) :
    set_v2_compatible_defaults d u1 = set_v2_compatible_defaults d u2 := by
  have huu : ∀ (x : RawDoc), x.table_uuid = d.table_uuid → ∀ u, uuidStep x u = x := by
    intro x hx u
    unfold uuidStep
    cases hxx : x.table_uuid with
    | none => rw [hx] at hxx; exact absurd hxx hu
    | some t => rfl
  unfold set_v2_compatible_defaults
  cases hs : d.schema with
  | none => rfl
  | some s =>
    simp only
    cases hlp : d.last_partition_id with
    | some lp =>
      simp only
      apply congrArg Except.ok
      refine (huu _ ?_ u1).trans ((huu _ ?_ u2)).symm <;> rfl
    | none =>
      cases hps : d.partition_spec with
      | none => rfl
      | some ps =>
        cases ps with
        | nil => rfl
        | cons f fs =>
          simp only
          apply congrArg Except.ok
          refine (huu _ ?_ u1).trans ((huu _ ?_ u2)).symm <;> rfl

/-! ### Claim theorems -/

/-- C5: for every raw document, parsing fails with the typed
missing-format-version error when the `format-version` field is absent, fails
with the typed unknown-format-version error carrying the offending value when
the field holds anything other than `1` or `2`, and otherwise dispatches to
exactly the version-1 or version-2 construction pipeline according to the
tag. -/
theorem C5_dispatch (d : RawDoc) (u : Nat) :
    (d.format_version = none →
      parse_obj d u = .error .missingFormatVersion ∧
      isExplicitValidationError .missingFormatVersion = true) ∧
    (∀ v, d.format_version = some v → v ≠ 1 → v ≠ 2 →
      parse_obj d u = .error (.unknownFormatVersion v) ∧
      isExplicitValidationError (.unknownFormatVersion v) = true) ∧
    (d.format_version = some 1 → parse_obj d u = (v1_pipeline d u).map Sum.inl) ∧
    (d.format_version = some 2 → parse_obj d u = (v2_pipeline d).map Sum.inr) := by
  refine ⟨?_, ?_, ?_, ?_⟩
  · intro h
    unfold parse_obj
    rw [h]
    exact ⟨rfl, rfl⟩
  · intro v h h1 h2
    unfold parse_obj
    rw [h]
    simp only
    rw [if_neg h1, if_neg h2]
    exact ⟨rfl, rfl⟩
  · intro h
    unfold parse_obj
    rw [h]
    simp
  · intro h
    unfold parse_obj
    rw [h]
    simp

/-- Witness for C5 at concrete inputs: a document with no `format-version`
and a document with `format-version = 3`. -/
theorem C5_dispatch_witness :
    parse_obj emptyRaw 0 = .error .missingFormatVersion ∧
    parse_obj { emptyRaw with format_version := some 3 } 0
      = .error (.unknownFormatVersion 3) :=
  ⟨((C5_dispatch emptyRaw 0).1 rfl).1,
   ((C5_dispatch { emptyRaw with format_version := some 3 } 0).2.1 3 rfl
     (by decide) (by decide)).1⟩

/-- C10: for every raw document that supplies a `table-uuid` key, parsing is
deterministic: the result does not depend on the value the random UUID
generator would return (that path runs only when the key is absent from a
version-1 document). -/
theorem C10_deterministic (d : RawDoc) (u1 u2 : Nat) (hu : d.table_uuid ≠ none) :
    parse_obj d u1 = parse_obj d u2 := by
  unfold parse_obj
  cases hfv : d.format_version with
  | none => rfl
  | some fv =>
    simp only
    have hpp : v1_pipeline d u1 = v1_pipeline d u2 := by
      unfold v1_pipeline
      rw [set_v2_uuid_indep (cleanup_snapshot_id d) u1 u2
        (by rw [cleanup_table_uuid]; exact hu)]
    rw [hpp]

/-- Witness for C10: the same version-1 document parsed with two different
fresh-UUID draws. -/
theorem C10_deterministic_witness :
    parse_obj { v1base with table_uuid := some (some 4) } 3
      = parse_obj { v1base with table_uuid := some (some 4) } 99 :=
  C10_deterministic { v1base with table_uuid := some (some 4) } 3 99 (by decide)

/-- C2 (code bug): a version-1 document supplying a non-empty plural
`schemas` collection never reaches the dangling-schema check: the source
passes `data["schemas"]` (a list) to `check_schemas`, whose first line
indexes its argument with the string `"current_schema_id"`, raising
`TypeError` — for a mismatching and even for a matching collection — while
the identical data under version 2 produces the typed dangling-schema error
the claim describes. -/
theorem C2_supplied_schemas_typeerror :
    parse_obj { v1base with
      schemas := some [{ schema_id := some 1, payload := 0 }],
      current_schema_id := some 5 } 0 = .error .listIndicesTypeError ∧
    parse_obj { v1base with
      schemas := some [{ schema_id := some 1, payload := 0 }],
      current_schema_id := some 1 } 0 = .error .listIndicesTypeError ∧
    parse_obj { v2base with
      schemas := some [{ schema_id := some 1, payload := 0 }],
      current_schema_id := some 5 } 0 = .error (.currentSchemaIdNotFound 5) ∧
    isExplicitValidationError .listIndicesTypeError = false := by
  refine ⟨?_, ?_, ?_, rfl⟩ <;> rfl

/-- C3 (amended): a version-1 document with an empty `partition-spec` list
and no `last-partition-id` fails, but with the untyped `ValueError` that
`max()` raises on an empty sequence, not with a dedicated typed error. -/
theorem C3_empty_spec_fails_untyped (d : RawDoc) (u : Nat) (s : RawSchema)
    (h1 : d.format_version = some 1) (h2 : d.schema = some s)
    (h3 : d.partition_spec = some []) (h4 : d.last_partition_id = none) :
    parse_obj d u = .error .maxEmptySequence ∧
    isExplicitValidationError .maxEmptySequence = false := by
  refine ⟨?_, rfl⟩
  have hv : v1_pipeline d u = .error .maxEmptySequence := by
    unfold v1_pipeline
    have hpre : set_v2_compatible_defaults (cleanup_snapshot_id d) u
        = .error .maxEmptySequence := by
      unfold set_v2_compatible_defaults
      rw [cleanup_schema, h2]
      simp only
      rw [cleanup_last_partition_id, h4]
      simp only
      rw [cleanup_partition_spec, h3]
    rw [hpre]
  unfold parse_obj
  rw [h1]
  simp [hv, Except.map]

/-- Counterexample for C3 as stated: at a concrete empty-partition-spec
document the failure is the incidental untyped error, so no typed
malformed-partition-spec failure occurs. -/
theorem C3_untyped_counterexample :
    parse_obj { v1base with partition_spec := some [] } 0
      = .error .maxEmptySequence ∧
    isExplicitValidationError .maxEmptySequence = false := by
  exact ⟨rfl, rfl⟩

/-- Witness for C3 (amended) at a second concrete document. -/
theorem C3_empty_spec_fails_untyped_witness :
    parse_obj { v1base with
      partition_spec := some [],
      schema := some { schema_id := some 3, payload := 9 } } 2
      = .error .maxEmptySequence ∧
    isExplicitValidationError .maxEmptySequence = false :=
  C3_empty_spec_fails_untyped _ 2 { schema_id := some 3, payload := 9 }
    rfl rfl rfl rfl

/-- C1 (amended): every successfully constructed document of either version
whose `current_snapshot_id` is present and nonzero carries the entry `"main"`
mapped to a branch-type `SnapshotRef` at that id, regardless of whatever
`"main"` entry the raw input supplied.  (At snapshot id `0` the walrus
truthiness test skips the construction — see the counterexample.) -/
theorem C1_refs_main_nonzero (d : RawDoc) (u : Nat)
    (m : TableMetadataV1 ⊕ TableMetadataV2) (i : Int)
    (h : parse_obj d u = .ok m) (hc : csidOf m = some i) (hi : i ≠ 0) :
    (refsOf m).lookup MAIN_BRANCH
      = some { snapshot_id := i, snapshot_ref_type := SnapshotRefType.branch } := by
  obtain ⟨ha, hb⟩ := parse_obj_ok d u m h
  rw [hb]
  unfold finalRefs
  rw [← ha, hc]
  simp only
  rw [if_neg hi]
  simp [List.lookup]

/-- Counterexample for C1 as stated: a document with `current-snapshot-id = 0`
parses successfully with the id present, yet no `"main"` entry is created
(the walrus `if current_snapshot_id := data.get(...)` treats `0` as falsy). -/
theorem C1_zero_snapshot_counterexample :
    (parse_obj { v2base with
      current_snapshot_id := some (some 0),
      refs := some [("feature", { snapshot_id := 9, snapshot_ref_type := SnapshotRefType.tag })] } 0).map
        (fun m => (csidOf m, (refsOf m).lookup MAIN_BRANCH))
      = .ok (some 0, none) := by
  rfl

/-- Witness for C1 (amended): `current-snapshot-id = 42` with a conflicting
supplied `"main"` entry yields the synthetic branch reference. -/
theorem C1_refs_main_nonzero_witness :
    (parse_obj { v2base with
      current_snapshot_id := some (some 42),
      refs := some [(MAIN_BRANCH, { snapshot_id := 7, snapshot_ref_type := SnapshotRefType.tag })] } 0).map
        (fun m => (refsOf m).lookup MAIN_BRANCH)
      = .ok (some { snapshot_id := 42, snapshot_ref_type := SnapshotRefType.branch }) := by
  have h := C1_refs_main_nonzero { v2base with
    current_snapshot_id := some (some 42),
    refs := some [(MAIN_BRANCH, { snapshot_id := 7, snapshot_ref_type := SnapshotRefType.tag })] } 0
    _ 42 rfl rfl (by decide)
  exact congrArg Except.ok h

/-- C6 (amended): the refs construction is all-or-nothing.  When the
finalized `current_snapshot_id` is absent or zero the constructed refs
mapping equals exactly the supplied one; when it is present and nonzero the
constructed mapping is exactly the single synthetic `"main"` entry — supplied
entries under other names are discarded, not preserved. -/
theorem C6_refs_frame (d : RawDoc) (u : Nat) (m : TableMetadataV1 ⊕ TableMetadataV2)
    (h : parse_obj d u = .ok m) :
    (csidOf m = none ∨ csidOf m = some 0 → refsOf m = d.refs.getD []) ∧
    (∀ i, csidOf m = some i → i ≠ 0 →
      refsOf m = [(MAIN_BRANCH, { snapshot_id := i, snapshot_ref_type := SnapshotRefType.branch })]) := by
  obtain ⟨ha, hb⟩ := parse_obj_ok d u m h
  constructor
  · intro hcase
    rw [hb]
    unfold finalRefs
    rw [← ha]
    cases hcase with
    | inl h0 => rw [h0]
    | inr h0 =>
      rw [h0]
      simp
  · intro i hi hne
    rw [hb]
    unfold finalRefs
    rw [← ha, hi]
    simp only
    rw [if_neg hne]

/-- Counterexample for C6 as stated: with `current-snapshot-id = 42` a
supplied `"feature"` entry is dropped from the constructed refs mapping, not
preserved. -/
theorem C6_refs_discard_counterexample :
    (({ v2base with
        current_snapshot_id := some (some 42),
        refs := some [("feature", { snapshot_id := 9, snapshot_ref_type := SnapshotRefType.tag })] } : RawDoc).refs.getD []).lookup "feature"
      = some { snapshot_id := 9, snapshot_ref_type := SnapshotRefType.tag } ∧
    (parse_obj { v2base with
      current_snapshot_id := some (some 42),
      refs := some [("feature", { snapshot_id := 9, snapshot_ref_type := SnapshotRefType.tag })] } 0).map
        (fun m => (refsOf m).lookup "feature")
      = .ok none := by
  exact ⟨rfl, rfl⟩

/-- Witness for C6 (amended): with no `current-snapshot-id`, the supplied
refs mapping survives construction verbatim. -/
theorem C6_refs_frame_witness :
    (parse_obj { v1base with
      refs := some [("x", { snapshot_id := 3, snapshot_ref_type := SnapshotRefType.tag })] } 0).map refsOf
      = .ok [("x", { snapshot_id := 3, snapshot_ref_type := SnapshotRefType.tag })] := by
  have h := (C6_refs_frame { v1base with
    refs := some [("x", { snapshot_id := 3, snapshot_ref_type := SnapshotRefType.tag })] } 0 _ rfl).1
    (Or.inl rfl)
  exact congrArg Except.ok h

/-- C7 (amended): a raw `current-snapshot-id` of `-1` is rebound to null (the
key stays present — the claim's "field absent, not merely null" is refuted by
the counterexample) before any other processing; field validation then
collapses null and absent, so a successfully constructed document has an
absent `current_snapshot_id` and the supplied refs mapping with no synthetic
`"main"` entry added. -/
theorem C7_sentinel_cleanup (d : RawDoc) (u : Nat)
    (hc : d.current_snapshot_id = some (some (-1))) :
    (cleanup_snapshot_id d).current_snapshot_id = some none ∧
    ∀ m, parse_obj d u = .ok m → csidOf m = none ∧ refsOf m = d.refs.getD [] := by
  have h1 : (cleanup_snapshot_id d).current_snapshot_id = some none := by
    unfold cleanup_snapshot_id
    rw [if_pos hc]
  refine ⟨h1, ?_⟩
  intro m h
  obtain ⟨ha, hb⟩ := parse_obj_ok d u m h
  have hcs : finalCsid d = none := by
    unfold finalCsid
    rw [h1]
    rfl
  constructor
  · rw [ha, hcs]
  · rw [hb]
    unfold finalRefs
    rw [hcs]

/-- Counterexample for C7 as stated: after the cleanup pre-validator the
`current-snapshot-id` key is still present, bound to null — not absent. -/
theorem C7_null_not_absent_counterexample :
    (cleanup_snapshot_id { v1base with
      current_snapshot_id := some (some (-1)) }).current_snapshot_id = some none ∧
    (cleanup_snapshot_id { v1base with
      current_snapshot_id := some (some (-1)) }).current_snapshot_id ≠ none := by
  exact ⟨rfl, by decide⟩

/-- Witness for C7 (amended) at a concrete document carrying the sentinel and
a supplied refs mapping. -/
theorem C7_sentinel_cleanup_witness :
    (cleanup_snapshot_id { v1base with
      current_snapshot_id := some (some (-1)),
      refs := some [("keep", { snapshot_id := 5, snapshot_ref_type := SnapshotRefType.tag })] }).current_snapshot_id
      = some none ∧
    (parse_obj { v1base with
      current_snapshot_id := some (some (-1)),
      refs := some [("keep", { snapshot_id := 5, snapshot_ref_type := SnapshotRefType.tag })] } 0).map
        (fun m => (csidOf m, refsOf m))
      = .ok (none, [("keep", { snapshot_id := 5, snapshot_ref_type := SnapshotRefType.tag })]) := by
  have h := C7_sentinel_cleanup { v1base with
    current_snapshot_id := some (some (-1)),
    refs := some [("keep", { snapshot_id := 5, snapshot_ref_type := SnapshotRefType.tag })] } 0 rfl
  have h2 := h.2 _ rfl
  exact ⟨h.1, congrArg Except.ok (congrArg₂ Prod.mk h2.1 h2.2)⟩

/-- C8 (amended): a version-1 document supplying neither `sort-orders` nor
`default-sort-order-id` constructs with the defaulted id `0` and exactly the
one reserved unsorted order, and the sort-order cross-reference check never
fires (the version-1 pipeline cannot raise the dangling-sort-order error at
all).  The claim as stated omits the `default-sort-order-id` hypothesis — see
the counterexample. -/
theorem C8_missing_sort_orders (d : RawDoc) (u : Nat)
    (h1 : d.format_version = some 1) (h2 : d.sort_orders = none)
    (h3 : d.default_sort_order_id = none) :
    (∀ m, parse_obj d u = .ok (.inl m) →
      m.default_sort_order_id = 0 ∧ m.sort_orders = [UNSORTED_SORT_ORDER]) ∧
    (∀ i, parse_obj d u ≠ .error (.defaultSortOrderIdNotFound i)) := by
  constructor
  · intro m h
    have hv : v1_pipeline d u = .ok m := by
      unfold parse_obj at h
      rw [h1] at h
      have h' : (v1_pipeline d u).map Sum.inl = .ok (Sum.inl m) := h
      cases hvv : v1_pipeline d u with
      | error e => rw [hvv] at h'; exact Except.noConfusion h'
      | ok m1 =>
        rw [hvv] at h'
        simp only [Except.map] at h'
        injection h' with h'
        injection h' with h'
        rw [h']
    obtain ⟨-, -, hd, hs, -⟩ := v1_pipeline_ok d u m hv
    refine ⟨?_, hs⟩
    rw [hd, h3]
    rfl
  · intro i hcontra
    unfold parse_obj at hcontra
    rw [h1] at hcontra
    have h' : (v1_pipeline d u).map Sum.inl
        = .error (.defaultSortOrderIdNotFound i) := hcontra
    cases hvv : v1_pipeline d u with
    | error e =>
      rw [hvv] at h'
      simp only [Except.map] at h'
      injection h' with h'
      have hne := v1_pipeline_error_not_explicit d u e hvv
      rw [h'] at hne
      simp [isExplicitValidationError] at hne
    | ok m1 =>
      rw [hvv] at h'
      simp only [Except.map] at h'
      exact Except.noConfusion h'

/-- Counterexample for C8 as stated: a version-1 document with no
`sort-orders` but an explicit `default-sort-order-id = 5` parses successfully
with `default_sort_order_id = 5`, not `0` (and the dangling id goes
unchecked). -/
theorem C8_default_sort_counterexample :
    ({ v1base with default_sort_order_id := some 5 } : RawDoc).sort_orders = none ∧
    (parse_obj { v1base with default_sort_order_id := some 5 } 0).map dsoiOf = .ok 5 := by
  exact ⟨rfl, rfl⟩

/-- Witness for C8 (amended) at a concrete document. -/
theorem C8_missing_sort_orders_witness :
    (parse_obj v1base 7).map dsoiOf = .ok 0 ∧
    (parse_obj v1base 7).map sortOrdersOf = .ok [UNSORTED_SORT_ORDER] ∧
    parse_obj v1base 7 ≠ .error (.defaultSortOrderIdNotFound 3) := by
  have h := C8_missing_sort_orders v1base 7 rfl rfl rfl
  have h1 := h.1 _ rfl
  exact ⟨congrArg Except.ok h1.1, congrArg Except.ok h1.2, h.2 3⟩

/-- C9 (amended): `parse_obj` leaves the caller's input unchanged — top-level
rebindings act on the keyword-argument shallow copy — except in one case: a
version-1 parse whose singular schema object lacks a `schema-id` writes the
default id into that shared nested object (see the counterexample).  For
every document that is not version-1-tagged, or whose singular schema is
absent or already carries an id, the input survives the call verbatim. -/
theorem C9_input_preserved (d : RawDoc)
    (h : d.format_version = some 1 → d.schema.all (fun s => s.schema_id.isSome) = true) :
    parse_obj_inputAfter d = d := by
  unfold parse_obj_inputAfter
  split
  · next hfv =>
    cases hs : d.schema with
    | none => rfl
    | some s =>
      have hall := h hfv
      rw [hs] at hall
      simp only [Option.all] at hall
      have hid : s.schema_id ≠ none := by
        cases hsi : s.schema_id with
        | none => rw [hsi] at hall; exact Bool.noConfusion hall
        | some v => exact fun hc => Option.noConfusion hc
      simp only
      have hn : normalize_schema_id s = s := by
        unfold normalize_schema_id
        rw [if_neg hid]
      rw [hn, ← hs]
  · rfl

/-- Counterexample for C9 as stated: parsing a version-1 document whose
singular schema has no `schema-id` mutates the caller's nested schema object
(it gains `schema-id = 0`), even though the parse itself succeeds. -/
theorem C9_mutation_counterexample :
    parse_obj_inputAfter { v1base with schema := some { schema_id := none, payload := 5 } }
      ≠ { v1base with schema := some { schema_id := none, payload := 5 } } ∧
    (parse_obj_inputAfter { v1base with
      schema := some { schema_id := none, payload := 5 } }).schema
      = some { schema_id := some 0, payload := 5 } ∧
    (parse_obj { v1base with
      schema := some { schema_id := none, payload := 5 } } 0).toOption.isSome = true := by
  exact ⟨by decide, rfl, rfl⟩

/-- Witness for C9 (amended): a version-1 document whose schema already has
an id passes through untouched. -/
theorem C9_input_preserved_witness : parse_obj_inputAfter v1base = v1base :=
  C9_input_preserved v1base (fun _ => rfl)

/-- C4 (amended): upgrading a parsed version-1 document succeeds and copies
every common field verbatim — with version tag `2` and
`last_sequence_number = 0` — provided the document's `table_uuid` is present
and its current/default pointers satisfy the version-2 cross-reference
checks (conditions version-1 construction never verified; the counterexample
shows each of them is needed).  In the model `to_v2` is a pure function, as
in the source, where `.dict()` hands the new construction fresh nested
objects, so the source document is left unmodified. -/
theorem C4_upgrade_preserves (d : RawDoc) (u : Nat) (m : TableMetadataV1)
    (h : parse_obj d u = .ok (.inl m))
    (hu : m.table_uuid.isSome = true)
    (hsc : (m.schemas.any fun s => s.schema_id == m.current_schema_id) = true)
    (hps : (m.partition_specs.any fun p => p.spec_id == m.default_spec_id) = true)
    (hso : m.default_sort_order_id = UNSORTED_SORT_ORDER_ID ∨
      (m.sort_orders.any fun o => o.order_id == m.default_sort_order_id) = true) :
    to_v2 m = .ok { toCommonValues := m.toCommonValues, format_version := 2,
                    last_sequence_number := 0 } := by
  have hrefs : construct_refs m.toCommonValues = m.toCommonValues := by
    obtain ⟨ha, hb⟩ := parse_obj_ok d u _ h
    apply construct_refs_congr
    intro i hi hne
    have hcs : finalCsid d = some i := by
      rw [← ha]
      exact hi
    have hfr : finalRefs d
        = [(MAIN_BRANCH, { snapshot_id := i, snapshot_ref_type := SnapshotRefType.branch })] := by
      unfold finalRefs
      rw [hcs]
      simp only
      rw [if_neg hne]
    have hb' : m.refs = finalRefs d := hb
    rw [hb', hfr]
  have hnone : m.table_uuid.isNone = false := by
    cases hx : m.table_uuid with
    | none => rw [hx] at hu; exact Bool.noConfusion hu
    | some t => rfl
  have h1 : check_schemas m.toCommonValues = .ok m.toCommonValues := by
    unfold check_schemas
    rw [if_pos hsc]
  have h2 : check_partition_specs m.toCommonValues = .ok m.toCommonValues := by
    unfold check_partition_specs
    rw [if_pos hps]
  have h3 : check_sort_orders m.toCommonValues = .ok m.toCommonValues := by
    unfold check_sort_orders
    cases hso with
    | inl h0 =>
      rw [if_neg (by rw [h0]; exact fun hc => hc rfl)]
    | inr h0 =>
      by_cases hz : m.default_sort_order_id = UNSORTED_SORT_ORDER_ID
      · rw [if_neg (by rw [hz]; exact fun hc => hc rfl)]
      · rw [if_pos hz, if_pos h0]
  unfold to_v2
  rw [if_neg (by rw [hnone]; exact fun hc => Bool.noConfusion hc)]
  simp only
  rw [hrefs, h1]
  simp only
  rw [h2]
  simp only
  rw [h3]
  rfl

/-- Counterexample for C4 as stated: four version-1 documents that parse
successfully (so are valid version-1 documents) on which `upgrade_to_v2`
fails rather than returning a version-2 document: a null `table-uuid`, and a
dangling `current-schema-id`, `default-spec-id` and `default-sort-order-id`
(none of which version-1 construction checks, all of which version-2
construction re-validates). -/
theorem C4_upgrade_counterexample :
    ((v1_pipeline { v1base with table_uuid := some none } 0).toOption.isSome = true ∧
      (v1_pipeline { v1base with table_uuid := some none } 0).bind to_v2
        = .error (.noneNotAllowed "table-uuid")) ∧
    ((v1_pipeline { v1base with current_schema_id := some 9 } 0).toOption.isSome = true ∧
      (v1_pipeline { v1base with current_schema_id := some 9 } 0).bind to_v2
        = .error (.currentSchemaIdNotFound 9)) ∧
    ((v1_pipeline { v1base with default_spec_id := some 7 } 0).toOption.isSome = true ∧
      (v1_pipeline { v1base with default_spec_id := some 7 } 0).bind to_v2
        = .error (.defaultSpecIdNotFound 7)) ∧
    ((v1_pipeline { v1base with default_sort_order_id := some 4 } 0).toOption.isSome = true ∧
      (v1_pipeline { v1base with default_sort_order_id := some 4 } 0).bind to_v2
        = .error (.defaultSortOrderIdNotFound 4)) := by
  exact ⟨⟨rfl, rfl⟩, ⟨rfl, rfl⟩, ⟨rfl, rfl⟩, ⟨rfl, rfl⟩⟩

/-- Witness for C4 (amended): upgrading a concrete parsed version-1 document
yields exactly the version-2 retagging of its common fields. -/
theorem C4_upgrade_preserves_witness :
    (v1_pipeline { v1base with table_uuid := some (some 3) } 0).bind to_v2
      = (v1_pipeline { v1base with table_uuid := some (some 3) } 0).map
          (fun m => { toCommonValues := m.toCommonValues, format_version := 2,
                      last_sequence_number := 0 }) := by
  have h := C4_upgrade_preserves { v1base with table_uuid := some (some 3) } 0 _
    rfl rfl rfl rfl (Or.inl rfl)
  exact h
